import Mathlib

/-!
# Verification of the mcp_trader order-execution core

Shallow embedding of `src/services/exchange_client.py` (class `ExchangeClient`)
and the MCP tool layer (`src/mcp/tools.py`) of the `mcp_trader` repository,
together with proofs about the claims of the specification.

Conventions of the embedding:
* Python `Decimal` values and exchange numeric data are modelled as `ℚ`.
  Python `Decimal` division under the default context (28 significant digits,
  `ROUND_HALF_EVEN`) is modelled by `decDiv`.
* The `float(...)` casts performed at the ccxt call boundary are modelled by
  `pyFloat`, the rounding of a rational to the nearest binary64 value
  (normal range; overflow and subnormals do not occur for trading values).
* The ccxt exchange handle is modelled as a deterministic oracle
  (`MockExchange`) mapping each outbound request to a response or a raised
  ccxt exception.
* Every client operation is a function from the client state (its attribute
  dictionary) to an `OpResult`: the post-state, a `Except PyErr` outcome and
  the ordered list of outbound exchange calls it performed.
* Python exception objects are modelled structurally: `Msg` models the
  message (an f-string wrapping of an inner `str(e)` is kept as a node so
  that the carried data stays visible), `PyErr` models the exception class.
-/

/-! ## Rounding models -/

/-- Round a rational to the nearest integer, ties to even
(the rounding used both by Python `Decimal`'s default context and by
binary64 floats). -/
def roundHalfEven (q : ℚ) : ℤ :=
  let n := ⌊q⌋
  let r := q - n
  if r < 1/2 then n
  else if 1/2 < r then n + 1
  else if n % 2 = 0 then n else n + 1

/-- `10 ^ z` as a rational, for an integer exponent. -/
def qpow10 (z : ℤ) : ℚ :=
  if 0 ≤ z then ((10 ^ z.toNat : ℕ) : ℚ) else 1 / ((10 ^ (-z).toNat : ℕ) : ℚ)

/-- `2 ^ z` as a rational, for an integer exponent. -/
def qpow2 (z : ℤ) : ℚ :=
  if 0 ≤ z then ((2 ^ z.toNat : ℕ) : ℚ) else 1 / ((2 ^ (-z).toNat : ℕ) : ℚ)

/-- `⌊log₁₀ q⌋` for a positive rational `q`. -/
def ilog10q (q : ℚ) : ℤ :=
  let L : ℤ := (Nat.log 10 q.num.toNat : ℤ) - (Nat.log 10 q.den : ℤ)
  if qpow10 (L + 1) ≤ q then L + 1
  else if qpow10 L ≤ q then L
  else L - 1

/-- `⌊log₂ q⌋` for a positive rational `q`. -/
def ilog2q (q : ℚ) : ℤ :=
  let L : ℤ := (Nat.log 2 q.num.toNat : ℤ) - (Nat.log 2 q.den : ℤ)
  if qpow2 (L + 1) ≤ q then L + 1
  else if qpow2 L ≤ q then L
  else L - 1

/-- Round a rational to 28 significant decimal digits, ties to even:
the rounding applied by Python `Decimal` arithmetic under the default
context (`getcontext().prec = 28`, `ROUND_HALF_EVEN`). -/
def decRound28 (q : ℚ) : ℚ :=
  if q = 0 then 0
  else
    let s : ℚ := if q < 0 then -1 else 1
    let x := |q|
    let e := ilog10q x - 27
    s * (roundHalfEven (x / qpow10 e) : ℚ) * qpow10 e

/-- Python `Decimal` division under the default context: the exact quotient
correctly rounded to 28 significant digits, ties to even. -/
def decDiv (a b : ℚ) : ℚ := decRound28 (a / b)

/-- Python `float(x)`: the binary64 value nearest to `x` (ties to even),
as a rational. Valid on the normal range, which covers all trading values. -/
def pyFloat (q : ℚ) : ℚ :=
  if q = 0 then 0
  else
    let s : ℚ := if q < 0 then -1 else 1
    let x := |q|
    let e := ilog2q x - 52
    s * (roundHalfEven (x / qpow2 e) : ℚ) * qpow2 e

/-! ## Exceptions (`src/core/exceptions.py` and ccxt) -/

/-- Structural model of a Python exception message.  An f-string
`f"prefix{e}"` that embeds `str(e)` of an inner exception is kept as a
`wrap` node, so the data carried by the message stays observable. -/
inductive Msg where
  /-- A literal message string. -/
  | text (s : String) : Msg
  /-- `f"Amount {amount} is less than minimum required amount {min_amount}"`
  (exchange_client.py line 158): carries both numbers. -/
  | amountBelowMin (amount minAmount : ℚ) : Msg
  /-- `DivisionByZero` raised by `Decimal` division by zero. -/
  | divisionByZero : Msg
  /-- `f"<pre>{e}"`: a prefix followed by `str(e)` of the wrapped cause. -/
  | wrap (pre : String) (cause : Msg) : Msg
  deriving DecidableEq, Repr

/-- The ccxt exception classes distinguished by the client's `except`
clauses, with `str(e)` payload. -/
inductive CcxtErr where
  | auth (m : String) : CcxtErr
  | network (m : String) : CcxtErr
  | invalidOrder (m : String) : CcxtErr
  | other (m : String) : CcxtErr
  deriving DecidableEq, Repr

/-- The domain exception classes of `src/core/exceptions.py` raised by the
client, plus Python's `AttributeError` (reading a never-assigned attribute).
Each domain class carries its message (`str(e)` is the message, because
`TradingMCPError.__init__` forwards it to `Exception`). -/
inductive PyErr where
  | attributeError : PyErr
  | exchangeError (m : Msg) : PyErr
  | authenticationError (m : Msg) : PyErr
  | networkError (m : Msg) : PyErr
  | tradingError (m : Msg) : PyErr
  | invalidOrderError (m : Msg) : PyErr
  | validationError (m : Msg) : PyErr
  deriving DecidableEq, Repr

/-- `str(e)` of a raised domain exception, as used inside a wrapping
f-string. `AttributeError` never reaches a wrapping handler in the client. -/
def PyErr.str : PyErr → Msg
  | .attributeError => .text "AttributeError"
  | .exchangeError m => m
  | .authenticationError m => m
  | .networkError m => m
  | .tradingError m => m
  | .invalidOrderError m => m
  | .validationError m => m

/-- `str(e)` of a ccxt exception. -/
def CcxtErr.str : CcxtErr → Msg
  | .auth m => .text m
  | .network m => .text m
  | .invalidOrder m => .text m
  | .other m => .text m

/-! ## Order data model (`src/core/types.py`) -/

/-- `OrderSide` (str enum): BUY = "BUY", SELL = "SELL". -/
inductive OrderSide where
  | buy : OrderSide
  | sell : OrderSide
  deriving DecidableEq, Repr

/-- The string value of the str-enum member, as received by ccxt. -/
def OrderSide.val : OrderSide → String
  | .buy => "BUY"
  | .sell => "SELL"

/-- `OrderType` (str enum): MARKET = "market", LIMIT = "limit",
STOP = "stop", STOP_LIMIT = "stop_limit". -/
inductive OrderType where
  | market : OrderType
  | limit : OrderType
  | stop : OrderType
  | stopLimit : OrderType
  deriving DecidableEq, Repr

/-- The string value of the str-enum member, as received by ccxt. -/
def OrderType.val : OrderType → String
  | .market => "market"
  | .limit => "limit"
  | .stop => "stop"
  | .stopLimit => "stop_limit"

/-- An extra order parameter (the `params` dict entries; the only value
used by this client is the boolean `reduceOnly`). -/
abbrev OrderParams := List (String × Bool)

/-- The request received by ccxt `create_order`, after the client's casts:
`type` and `side` are the strings ccxt sees, `amount` and `price` are the
float values passed. -/
structure OrderReq where
  symbol : String
  otype : String
  side : String
  amount : ℚ
  price : Option ℚ
  params : OrderParams
  deriving DecidableEq, Repr

/-- The order dict returned by ccxt `create_order`; the client only reads
`order.get('id')`. -/
structure CreatedOrder where
  id : Option String
  deriving DecidableEq, Repr

/-- One entry of the ccxt `fetch_positions` snapshot: the client reads
`position['info'].get('positionAmt', 0)` (as a float); `none` models a
missing `positionAmt` key, defaulted to `0` by `.get`. -/
structure PositionInfo where
  positionAmt : Option ℚ
  deriving DecidableEq, Repr

/-- The float value `float(position['info'].get('positionAmt', 0))`. -/
def PositionInfo.amt (p : PositionInfo) : ℚ := p.positionAmt.getD 0

/-- The balance dict returned by ccxt `fetch_balance` (opaque to the
client: it is returned unchanged). -/
abbrev Balances := List (String × ℚ)

/-- An outbound call to the ccxt exchange handle, recorded in order. -/
inductive ExCall where
  | fetchBalance : ExCall
  | fetchPositions (symbols : Option (List String)) : ExCall
  | fetchOpenOrders (symbol : Option String) : ExCall
  | fetchTicker (symbol : String) : ExCall
  | market (symbol : String) : ExCall
  | createOrder (req : OrderReq) : ExCall
  deriving DecidableEq, Repr

/-- The ccxt exchange handle, modelled as a deterministic oracle: each
outbound request is mapped to its response or to a raised ccxt exception.
`tickerLast` is `Decimal(str(fetch_ticker(symbol)['last']))`;
`marketMinAmount` is `market(symbol)['limits']['amount']['min']`. -/
structure MockExchange where
  fetchBalance : Except CcxtErr Balances
  fetchPositions : Option (List String) → Except CcxtErr (List PositionInfo)
  fetchOpenOrders : Option String → Except CcxtErr (List CreatedOrder)
  tickerLast : String → Except CcxtErr ℚ
  marketMinAmount : String → Except CcxtErr ℚ
  createOrder : OrderReq → Except CcxtErr CreatedOrder

/-- `Settings` fields consumed by the client constructor
(`src/config/settings.py`); the operations under verification never read
them, they are carried to state the frame property. -/
structure Settings where
  sandboxMode : Bool
  rateLimit : Bool
  debug : Bool
  deriving DecidableEq, Repr

/-- The `ExchangeClient` instance state: its `config` attribute and its
`exchange` attribute slot. `__init__` only *annotates* `self.exchange:
binance` and never assigns it, so the slot is `none` (reading it raises
`AttributeError`) until `initialize` assigns the handle. -/
structure ClientState where
  config : Settings
  exchangeAttr : Option MockExchange

/-- Result of one client operation: the post-state of the instance, the
returned value or raised exception, and the ordered outbound ccxt calls. -/
structure OpResult (α : Type) where
  state : ClientState
  result : Except PyErr α
  calls : List ExCall

/-! ## The client operations (`src/services/exchange_client.py`)

Each method starts with the guard `if not self.exchange: raise
ExchangeError("Exchange client not initialized")`.  Reading `self.exchange`
on an instance whose `initialize` was never called raises `AttributeError`
(the constructor only annotates the attribute); once assigned, the handle
is a ccxt `binance` instance, which defines neither `__bool__` nor
`__len__`, so it is always truthy. -/

/-- Truthiness of a ccxt `binance` instance (`bool(self.exchange)`):
always `true`, since the class defines neither `__bool__` nor `__len__`. -/
def exchangeTruthy (_ : MockExchange) : Bool := true

/-- `ExchangeClient.retrieve_balance` (lines 51-65). -/
def retrieve_balance (st : ClientState) : OpResult Balances :=
  match st.exchangeAttr with
  | none => ⟨st, .error .attributeError, []⟩
  | some ex =>
    if !exchangeTruthy ex then
      ⟨st, .error (.exchangeError (.text "Exchange client not initialized")), []⟩
    else
      match ex.fetchBalance with
      | .ok balance => ⟨st, .ok balance, [.fetchBalance]⟩
      | .error (.auth m) =>
        ⟨st, .error (.authenticationError (.wrap "Authentication failed: " (.text m))), [.fetchBalance]⟩
      | .error (.network m) =>
        ⟨st, .error (.networkError (.wrap "Network error: " (.text m))), [.fetchBalance]⟩
      | .error e =>
        ⟨st, .error (.exchangeError (.wrap "Failed to fetch balance: " e.str)), [.fetchBalance]⟩

/-- `ExchangeClient.fetch_positions` (lines 67-81). -/
def fetch_positions (st : ClientState) (symbols : Option (List String)) :
    OpResult (List PositionInfo) :=
  match st.exchangeAttr with
  | none => ⟨st, .error .attributeError, []⟩
  | some ex =>
    if !exchangeTruthy ex then
      ⟨st, .error (.exchangeError (.text "Exchange client not initialized")), []⟩
    else
      match ex.fetchPositions symbols with
      | .ok positions => ⟨st, .ok positions, [.fetchPositions symbols]⟩
      | .error (.auth m) =>
        ⟨st, .error (.authenticationError (.wrap "Authentication failed: " (.text m))), [.fetchPositions symbols]⟩
      | .error (.network m) =>
        ⟨st, .error (.networkError (.wrap "Network error: " (.text m))), [.fetchPositions symbols]⟩
      | .error e =>
        ⟨st, .error (.exchangeError (.wrap "Failed to fetch positions: " e.str)), [.fetchPositions symbols]⟩

/-- `ExchangeClient.fetch_open_orders` (lines 83-97). -/
def fetch_open_orders (st : ClientState) (symbol : Option String) :
    OpResult (List CreatedOrder) :=
  match st.exchangeAttr with
  | none => ⟨st, .error .attributeError, []⟩
  | some ex =>
    if !exchangeTruthy ex then
      ⟨st, .error (.exchangeError (.text "Exchange client not initialized")), []⟩
    else
      match ex.fetchOpenOrders symbol with
      | .ok orders => ⟨st, .ok orders, [.fetchOpenOrders symbol]⟩
      | .error (.auth m) =>
        ⟨st, .error (.authenticationError (.wrap "Authentication failed: " (.text m))), [.fetchOpenOrders symbol]⟩
      | .error (.network m) =>
        ⟨st, .error (.networkError (.wrap "Network error: " (.text m))), [.fetchOpenOrders symbol]⟩
      | .error e =>
        ⟨st, .error (.exchangeError (.wrap "Failed to fetch open orders: " e.str)), [.fetchOpenOrders symbol]⟩

/-- `ExchangeClient.create_order` (lines 99-137).  The domain
`InvalidOrderError` raised for a LIMIT order without a price is itself an
`Exception` but not a `ccxt.InvalidOrder`, so it is caught by the final
`except Exception` clause and re-raised as `TradingError`. -/
def create_order (st : ClientState) (symbol : String) (order_type : OrderType)
    (side : OrderSide) (amount : ℚ) (price : Option ℚ)
    (params : Option OrderParams) : OpResult CreatedOrder :=
  match st.exchangeAttr with
  | none => ⟨st, .error .attributeError, []⟩
  | some ex =>
    if !exchangeTruthy ex then
      ⟨st, .error (.exchangeError (.text "Exchange client not initialized")), []⟩
    else
      let order_params := params.getD []
      if order_type = OrderType.limit ∧ price = none then
        ⟨st, .error (.tradingError (.wrap "Failed to create order: "
          (.text "Price is required for limit orders"))), []⟩
      else
        let req : OrderReq :=
          { symbol := symbol
            otype := order_type.val
            side := side.val
            amount := pyFloat amount
            price := match price with
              | some p => if p = 0 then none else some (pyFloat p)
              | none => none
            params := order_params }
        match ex.createOrder req with
        | .ok order => ⟨st, .ok order, [.createOrder req]⟩
        | .error (.auth m) =>
          ⟨st, .error (.authenticationError (.wrap "Authentication failed: " (.text m))), [.createOrder req]⟩
        | .error (.network m) =>
          ⟨st, .error (.networkError (.wrap "Network error: " (.text m))), [.createOrder req]⟩
        | .error (.invalidOrder m) =>
          ⟨st, .error (.invalidOrderError (.wrap "Invalid order: " (.text m))), [.createOrder req]⟩
        | .error (.other m) =>
          ⟨st, .error (.tradingError (.wrap "Failed to create order: " (.text m))), [.createOrder req]⟩

/-- `ExchangeClient.create_usdt_order` (lines 139-170).  Its single
`except Exception` clause catches every failure of the try body — the ccxt
errors of the ticker/metadata lookups, the `InvalidOrderError` raised by
the minimum-amount check, and every typed error raised by the inner
`create_order` — and re-raises `TradingError(f"Failed to create USDT
order: {e}")`. -/
def create_usdt_order (st : ClientState) (symbol : String)
    (order_type : OrderType) (side : OrderSide) (usdt_amount : ℚ)
    (price : Option ℚ) (params : Option OrderParams) : OpResult CreatedOrder :=
  match st.exchangeAttr with
  | none => ⟨st, .error .attributeError, []⟩
  | some ex =>
    if !exchangeTruthy ex then
      ⟨st, .error (.exchangeError (.text "Exchange client not initialized")), []⟩
    else
      match ex.tickerLast symbol with
      | .error e =>
        ⟨st, .error (.tradingError (.wrap "Failed to create USDT order: " e.str)), [.fetchTicker symbol]⟩
      | .ok current_symbol_price =>
        if current_symbol_price = 0 then
          ⟨st, .error (.tradingError (.wrap "Failed to create USDT order: " .divisionByZero)), [.fetchTicker symbol]⟩
        else
          let amount := decDiv usdt_amount current_symbol_price
          match ex.marketMinAmount symbol with
          | .error e =>
            ⟨st, .error (.tradingError (.wrap "Failed to create USDT order: " e.str)),
              [.fetchTicker symbol, .market symbol]⟩
          | .ok min_amount =>
            if amount < min_amount then
              ⟨st, .error (.tradingError (.wrap "Failed to create USDT order: "
                (.amountBelowMin amount min_amount))), [.fetchTicker symbol, .market symbol]⟩
            else
              let inner := create_order st symbol order_type side amount price params
              match inner.result with
              | .ok order =>
                ⟨inner.state, .ok order, [.fetchTicker symbol, .market symbol] ++ inner.calls⟩
              | .error e =>
                ⟨inner.state, .error (.tradingError (.wrap "Failed to create USDT order: " e.str)),
                  [.fetchTicker symbol, .market symbol] ++ inner.calls⟩

/-- `ExchangeClient.market_buy` (lines 172-178). -/
def market_buy (st : ClientState) (symbol : String) (usdt_amount : ℚ) :
    OpResult CreatedOrder :=
  create_usdt_order st symbol OrderType.market OrderSide.buy usdt_amount none none

/-- `ExchangeClient.market_sell` (lines 180-186). -/
def market_sell (st : ClientState) (symbol : String) (usdt_amount : ℚ) :
    OpResult CreatedOrder :=
  create_usdt_order st symbol OrderType.market OrderSide.sell usdt_amount none none

/-- `ExchangeClient.limit_buy` (lines 188-195). -/
def limit_buy (st : ClientState) (symbol : String) (usdt_amount price : ℚ) :
    OpResult CreatedOrder :=
  create_usdt_order st symbol OrderType.limit OrderSide.buy usdt_amount (some price) none

/-- `ExchangeClient.limit_sell` (lines 197-204). -/
def limit_sell (st : ClientState) (symbol : String) (usdt_amount price : ℚ) :
    OpResult CreatedOrder :=
  create_usdt_order st symbol OrderType.limit OrderSide.sell usdt_amount (some price) none

/-- The loop body of `ExchangeClient.close_position` (lines 214-234): for
each fetched position whose `positionAmt` is nonzero, submit a reduce-only
MARKET order on the side opposite to the position; a ccxt exception from a
submission propagates out of the loop.  Returns the length of
`closed_positions` on success, and the calls made. -/
def closeLoop (ex : MockExchange) (symbol : String) :
    List PositionInfo → Except CcxtErr ℕ × List ExCall
  | [] => (.ok 0, [])
  | position :: rest =>
    let position_amt := position.amt
    if position_amt ≠ 0 then
      let size := |position_amt|
      let side := if position_amt > 0 then "sell" else "buy"
      let req : OrderReq :=
        { symbol := symbol, otype := "market", side := side,
          amount := size, price := none, params := [("reduceOnly", true)] }
      match ex.createOrder req with
      | .error e => (.error e, [.createOrder req])
      | .ok _ =>
        let rec_rest := closeLoop ex symbol rest
        (rec_rest.1.map (· + 1), .createOrder req :: rec_rest.2)
    else
      closeLoop ex symbol rest

/-- `ExchangeClient.close_position` (lines 206-248). -/
def close_position (st : ClientState) (symbol : String) : OpResult String :=
  match st.exchangeAttr with
  | none => ⟨st, .error .attributeError, []⟩
  | some ex =>
    if !exchangeTruthy ex then
      ⟨st, .error (.exchangeError (.text "Exchange client not initialized")), []⟩
    else
      match ex.fetchPositions (some [symbol]) with
      | .error (.auth m) =>
        ⟨st, .error (.authenticationError (.wrap "Authentication failed: " (.text m))),
          [.fetchPositions (some [symbol])]⟩
      | .error (.network m) =>
        ⟨st, .error (.networkError (.wrap "Network error: " (.text m))),
          [.fetchPositions (some [symbol])]⟩
      | .error e =>
        ⟨st, .error (.tradingError (.wrap "Failed to close position: " e.str)),
          [.fetchPositions (some [symbol])]⟩
      | .ok positions =>
        match closeLoop ex symbol positions with
        | (.error (.auth m), calls) =>
          ⟨st, .error (.authenticationError (.wrap "Authentication failed: " (.text m))),
            .fetchPositions (some [symbol]) :: calls⟩
        | (.error (.network m), calls) =>
          ⟨st, .error (.networkError (.wrap "Network error: " (.text m))),
            .fetchPositions (some [symbol]) :: calls⟩
        | (.error e, calls) =>
          ⟨st, .error (.tradingError (.wrap "Failed to close position: " e.str)),
            .fetchPositions (some [symbol]) :: calls⟩
        | (.ok n, calls) =>
          if n = 0 then
            ⟨st, .ok ("No open positions found for " ++ symbol),
              .fetchPositions (some [symbol]) :: calls⟩
          else
            ⟨st, .ok ("Closed " ++ toString n ++ " position(s) for " ++ symbol),
              .fetchPositions (some [symbol]) :: calls⟩

/-- `ExchangeClient.fetch_ticker` (lines 250-261); the ticker dict is
represented by its `last` field, the only field this codebase reads.
Note the except chain here has no `ccxt.AuthenticationError` clause: an
authentication failure falls to `except Exception` and becomes
`ExchangeError`. -/
def fetch_ticker (st : ClientState) (symbol : String) : OpResult ℚ :=
  match st.exchangeAttr with
  | none => ⟨st, .error .attributeError, []⟩
  | some ex =>
    if !exchangeTruthy ex then
      ⟨st, .error (.exchangeError (.text "Exchange client not initialized")), []⟩
    else
      match ex.tickerLast symbol with
      | .ok ticker => ⟨st, .ok ticker, [.fetchTicker symbol]⟩
      | .error (.network m) =>
        ⟨st, .error (.networkError (.wrap "Network error: " (.text m))), [.fetchTicker symbol]⟩
      | .error e =>
        ⟨st, .error (.exchangeError (.wrap "Failed to fetch ticker: " e.str)), [.fetchTicker symbol]⟩

/-- `ExchangeClient.is_connected` (lines 263-265): `self.exchange is not
None`.  Reading the attribute on a never-initialized instance raises
`AttributeError`; once assigned, the slot holds a `binance` instance,
which is never `None`. -/
def is_connected (st : ClientState) : OpResult Bool :=
  match st.exchangeAttr with
  | none => ⟨st, .error .attributeError, []⟩
  | some _ => ⟨st, .ok true, []⟩

/-! ## The MCP tool layer (`src/mcp/tools.py`)

The tools validate caller input, call the client, and catch *every*
exception into a human-readable string; they return a message, never
raise. -/

/-- Tool `open_market_long` (tools.py lines 14-39): validates the symbol
and the positivity of `usdt_amount` (an `int`), then calls
`exchange_client.market_buy`; any exception is rendered as
`f"Failed to open market long position: {str(e)}"`. -/
def open_market_long (st : ClientState) (symbol : String) (usdt_amount : ℤ) :
    OpResult Msg :=
  if symbol = "" then
    ⟨st, .ok (.wrap "Failed to open market long position: " (.text "Symbol is required")), []⟩
  else if usdt_amount ≤ 0 then
    ⟨st, .ok (.wrap "Failed to open market long position: " (.text "USDT amount must be positive")), []⟩
  else
    let r := market_buy st symbol (usdt_amount : ℚ)
    match r.result with
    | .ok _ => ⟨r.state, .ok (.text "Position opened successfully"), r.calls⟩
    | .error e => ⟨r.state, .ok (.wrap "Failed to open market long position: " e.str), r.calls⟩

/-! ## Result classifiers and concrete test fixtures -/

/-- Did the operation fail with the domain `InvalidOrderError` class? -/
def isInvalidOrderFailure {α : Type} : Except PyErr α → Bool
  | .error (.invalidOrderError _) => true
  | _ => false

/-- Did the operation fail with the domain `AuthenticationError` class? -/
def isAuthFailure {α : Type} : Except PyErr α → Bool
  | .error (.authenticationError _) => true
  | _ => false

/-- Did the operation fail with the domain `ValidationError` class? -/
def isValidationFailure {α : Type} : Except PyErr α → Bool
  | .error (.validationError _) => true
  | _ => false

/-- A settings vector (sandbox on, rate limit on, debug off). -/
def testSettings : Settings := ⟨true, true, false⟩

/-- An exchange oracle answering every request successfully: last price
50000, minimum amount 0.01, every order accepted with id "1"; the
position snapshot holds a long 5, a short 3, a flat entry and an entry
whose `positionAmt` key is missing. -/
def exOK : MockExchange :=
  { fetchBalance := .ok [("USDT", 1000)]
    fetchPositions := fun _ => .ok [⟨some 5⟩, ⟨some (-3)⟩, ⟨some 0⟩, ⟨none⟩]
    fetchOpenOrders := fun _ => .ok []
    tickerLast := fun _ => .ok 50000
    marketMinAmount := fun _ => .ok (1/100)
    createOrder := fun _ => .ok ⟨some "1"⟩ }

/-- An exchange oracle raising `ccxt.AuthenticationError("bad key")` on
every request. -/
def exAuthFail : MockExchange :=
  { fetchBalance := .error (.auth "bad key")
    fetchPositions := fun _ => .error (.auth "bad key")
    fetchOpenOrders := fun _ => .error (.auth "bad key")
    tickerLast := fun _ => .error (.auth "bad key")
    marketMinAmount := fun _ => .error (.auth "bad key")
    createOrder := fun _ => .error (.auth "bad key") }

/-- An exchange oracle with last price 3 and minimum amount 1 (so a
1-USDT notional computes quantity 1/3, below the minimum). -/
def exThird : MockExchange :=
  { fetchBalance := .ok []
    fetchPositions := fun _ => .ok []
    fetchOpenOrders := fun _ => .ok []
    tickerLast := fun _ => .ok 3
    marketMinAmount := fun _ => .ok 1
    createOrder := fun _ => .ok ⟨some "1"⟩ }

/-- An exchange oracle whose position snapshot holds only flat entries
(a zero amount and a missing `positionAmt` key). -/
def exFlat : MockExchange :=
  { fetchBalance := .ok []
    fetchPositions := fun _ => .ok [⟨some 0⟩, ⟨none⟩]
    fetchOpenOrders := fun _ => .ok []
    tickerLast := fun _ => .ok 50000
    marketMinAmount := fun _ => .ok (1/100)
    createOrder := fun _ => .ok ⟨some "1"⟩ }

/-- The exchange oracle of the specification example: last price 50000,
minimum amount 0.001, orders accepted. -/
def exSpec : MockExchange :=
  { fetchBalance := .ok []
    fetchPositions := fun _ => .ok []
    fetchOpenOrders := fun _ => .ok []
    tickerLast := fun _ => .ok 50000
    marketMinAmount := fun _ => .ok (1/1000)
    createOrder := fun _ => .ok ⟨some "1"⟩ }

/-- An exchange oracle with one open long position of 5 whose order
submissions all fail with a generic ccxt error. -/
def exSubmitFail : MockExchange :=
  { fetchBalance := .ok []
    fetchPositions := fun _ => .ok [⟨some 5⟩]
    fetchOpenOrders := fun _ => .ok []
    tickerLast := fun _ => .ok 50000
    marketMinAmount := fun _ => .ok (1/100)
    createOrder := fun _ => .error (.other "boom") }

/-- Client state with the `exOK` handle assigned. -/
def stOK : ClientState := ⟨testSettings, some exOK⟩

/-- Client state with the `exAuthFail` handle assigned. -/
def stAuthFail : ClientState := ⟨testSettings, some exAuthFail⟩

/-- Client state with the `exThird` handle assigned. -/
def stThird : ClientState := ⟨testSettings, some exThird⟩

/-- Client state with the `exFlat` handle assigned. -/
def stFlat : ClientState := ⟨testSettings, some exFlat⟩

/-- Client state of a constructed-but-never-initialized client: the
`exchange` attribute was annotated, never assigned. -/
def stUninit : ClientState := ⟨testSettings, none⟩

/-! ## Arithmetic facts about the rounding models -/

lemma qpow10_pos (z : ℤ) : 0 < qpow10 z := by
  unfold qpow10
  split
  · exact_mod_cast pow_pos (by norm_num : (0:ℕ) < 10) _
  · positivity

lemma qpow2_pos (z : ℤ) : 0 < qpow2 z := by
  unfold qpow2
  split
  · exact_mod_cast pow_pos (by norm_num : (0:ℕ) < 2) _
  · positivity

lemma qpow10_neg (n : ℕ) (h : 0 < n) : qpow10 (-(n:ℤ)) = 1 / 10 ^ n := by
  unfold qpow10
  rw [if_neg (by omega)]
  rw [show (-(-(n:ℤ))).toNat = n by omega]
  push_cast
  norm_num

lemma qpow2_neg (n : ℕ) (h : 0 < n) : qpow2 (-(n:ℤ)) = 1 / 2 ^ n := by
  unfold qpow2
  rw [if_neg (by omega)]
  rw [show (-(-(n:ℤ))).toNat = n by omega]
  push_cast
  norm_num

lemma roundHalfEven_lt_half (q : ℚ) (n : ℤ) (hfl : ⌊q⌋ = n) (hr : q - n < 1/2) :
    roundHalfEven q = n := by
  unfold roundHalfEven
  rw [hfl]
  exact if_pos hr

lemma roundHalfEven_intCast (k : ℤ) : roundHalfEven (k : ℚ) = k := by
  apply roundHalfEven_lt_half _ _ (Int.floor_intCast k)
  norm_num

lemma roundHalfEven_nonneg (q : ℚ) (h : 0 ≤ q) : 0 ≤ roundHalfEven q := by
  have hn : (0:ℤ) ≤ ⌊q⌋ := Int.floor_nonneg.mpr h
  show 0 ≤ (if q - ⌊q⌋ < 1/2 then ⌊q⌋ else if 1/2 < q - ⌊q⌋ then ⌊q⌋ + 1
    else if ⌊q⌋ % 2 = 0 then ⌊q⌋ else ⌊q⌋ + 1)
  split_ifs <;> omega

/-- Evaluation rule for `decRound28` on a positive input whose scaled
fraction rounds down. -/
lemma decRound28_pos_eval (q : ℚ) (hq : 0 < q) (L : ℤ) (hL : ilog10q q = L)
    (p : ℚ) (hp : qpow10 (L - 27) = p) (n : ℤ)
    (hfl : ⌊q / p⌋ = n) (hr : q / p - n < 1/2) :
    decRound28 q = n * p := by
  unfold decRound28
  rw [if_neg (ne_of_gt hq), if_neg (not_lt.mpr (le_of_lt hq))]
  show (1:ℚ) * (roundHalfEven (|q| / qpow10 (ilog10q |q| - 27)) : ℚ) *
      qpow10 (ilog10q |q| - 27) = n * p
  rw [abs_of_pos hq, hL, hp, roundHalfEven_lt_half _ _ hfl hr, one_mul]

/-- A positive value needing at most 28 significant decimal digits is
returned unchanged by `decRound28` — `Decimal` rounding is exact on
representable quotients. -/
lemma decRound28_int (q : ℚ) (hq : 0 < q) (L : ℤ) (hL : ilog10q q = L)
    (p : ℚ) (hp : qpow10 (L - 27) = p) (k : ℤ) (hk : q / p = (k : ℚ)) :
    decRound28 q = q := by
  have hp0 : p ≠ 0 := by rw [← hp]; exact ne_of_gt (qpow10_pos _)
  have h := decRound28_pos_eval q hq L hL p hp k (by rw [hk]; exact Int.floor_intCast k)
    (by rw [hk]; norm_num)
  rw [h, ← hk, div_mul_cancel₀ _ hp0]

/-- A positive value whose 53-bit scaled significand is exact is returned
unchanged by `pyFloat`. -/
lemma pyFloat_int (q : ℚ) (hq : 0 < q) (L : ℤ) (hL : ilog2q q = L)
    (p : ℚ) (hp : qpow2 (L - 52) = p) (k : ℤ) (hk : q / p = (k : ℚ)) :
    pyFloat q = q := by
  have hp0 : p ≠ 0 := by rw [← hp]; exact ne_of_gt (qpow2_pos _)
  unfold pyFloat
  rw [if_neg (ne_of_gt hq), if_neg (not_lt.mpr (le_of_lt hq))]
  show (1:ℚ) * (roundHalfEven (|q| / qpow2 (ilog2q |q| - 52)) : ℚ) *
      qpow2 (ilog2q |q| - 52) = q
  rw [abs_of_pos hq, hL, hp, one_mul, hk, roundHalfEven_intCast, ← hk,
    div_mul_cancel₀ _ hp0]

lemma decRound28_nonpos (q : ℚ) (h : q ≤ 0) : decRound28 q ≤ 0 := by
  unfold decRound28
  rcases eq_or_lt_of_le h with he | hlt
  · simp [he.symm]
  · rw [if_neg (ne_of_lt hlt), if_pos hlt]
    show (-1:ℚ) * (roundHalfEven (|q| / qpow10 (ilog10q |q| - 27)) : ℚ) *
        qpow10 (ilog10q |q| - 27) ≤ 0
    have h1 : (0:ℚ) ≤ (roundHalfEven (|q| / qpow10 (ilog10q |q| - 27)) : ℚ) := by
      exact_mod_cast roundHalfEven_nonneg _
        (div_nonneg (abs_nonneg q) (le_of_lt (qpow10_pos _)))
    nlinarith [qpow10_pos (ilog10q |q| - 27)]

/-! ## Concrete evaluations of the rounding models -/

lemma ilog10q_one_third : ilog10q (1/3 : ℚ) = -1 := by with_unfolding_all decide

/-- `Decimal(1) / Decimal(3)` is `0.3333333333333333333333333333`
(28 significant digits), not `1/3`. -/
lemma decDiv_one_three :
    decDiv 1 3 = 3333333333333333333333333333 * (1/10^28) := by
  unfold decDiv
  apply decRound28_pos_eval _ (by norm_num) (-1) ilog10q_one_third (1/10^28) ?hp
    3333333333333333333333333333 ?hfl ?hr
  case hp =>
    rw [show (-1 - 27 : ℤ) = -((28:ℕ):ℤ) by norm_num, qpow10_neg 28 (by norm_num)]
  case hfl =>
    rw [show ((1:ℚ)/3) / (1/10^28) = 10^28/3 by norm_num]
    rw [Int.floor_eq_iff]
    constructor <;> norm_num
  case hr =>
    rw [show ((1:ℚ)/3) / (1/10^28) = 10^28/3 by norm_num]
    push_cast
    norm_num

lemma decDiv_one_three_ne : decDiv 1 3 ≠ 1/3 := by
  rw [decDiv_one_three]
  norm_num

set_option maxRecDepth 2000 in
lemma ilog10q_1_500 : ilog10q ((100:ℚ)/50000) = -3 := by
  rw [show ((100:ℚ)/50000) = 1/500 by norm_num]
  with_unfolding_all decide

/-- `Decimal(100) / Decimal(50000)` is exactly `0.002` — the quotient is
representable within 28 significant digits. -/
lemma decDiv_100_50000 : decDiv 100 50000 = 1/500 := by
  unfold decDiv
  have h := decRound28_int ((100:ℚ)/50000) (by norm_num) (-3) ilog10q_1_500
    (1/10^30) ?hp (2 * 10^27) ?hk
  · rw [h]; norm_num
  case hp =>
    rw [show (-3 - 27 : ℤ) = -((30:ℕ):ℤ) by norm_num, qpow10_neg 30 (by norm_num)]
  case hk =>
    push_cast
    norm_num

/-! ## Helper lemmas about the operations -/

/-- With an accepting exchange, the closing loop submits exactly one
reduce-only market order per position with nonzero amount, in snapshot
order, and succeeds with the count of closed positions. -/
lemma closeLoop_all_ok (ex : MockExchange) (sym : String)
    (hok : ∀ r, ∃ o, ex.createOrder r = .ok o) :
    ∀ poss : List PositionInfo,
      closeLoop ex sym poss =
        (.ok (poss.filter (fun p => p.amt ≠ 0)).length,
         (poss.filter (fun p => p.amt ≠ 0)).map (fun p =>
           .createOrder ⟨sym, "market", if p.amt > 0 then "sell" else "buy",
             |p.amt|, none, [("reduceOnly", true)]⟩))
  | [] => rfl
  | p :: rest => by
    have ih := closeLoop_all_ok ex sym hok rest
    by_cases h : p.amt = 0
    · simp [closeLoop, h, ih]
    · obtain ⟨o, ho⟩ := hok ⟨sym, "market", if p.amt > 0 then "sell" else "buy",
        |p.amt|, none, [("reduceOnly", true)]⟩
      simp [closeLoop, h, ho, ih, Except.map]

/-- On a snapshot with only zero-amount entries the closing loop submits
nothing. -/
lemma closeLoop_all_zero (ex : MockExchange) (sym : String) :
    ∀ poss : List PositionInfo, (∀ p ∈ poss, p.amt = 0) →
      closeLoop ex sym poss = (.ok 0, [])
  | [], _ => rfl
  | p :: rest, h => by
    have hp := h p (by simp)
    have ih := closeLoop_all_zero ex sym rest (fun q hq => h q (by simp [hq]))
    simp [closeLoop, hp, ih]

/-- If submissions fail and some position has nonzero amount, the closing
loop propagates the ccxt exception. -/
lemma closeLoop_fail (ex : MockExchange) (sym : String) (e : CcxtErr)
    (hfail : ∀ r, ex.createOrder r = .error e) :
    ∀ poss : List PositionInfo, (∃ p ∈ poss, p.amt ≠ 0) →
      (closeLoop ex sym poss).1 = .error e
  | [], h => by simp at h
  | p :: rest, h => by
    by_cases hp : p.amt = 0
    · have : ∃ q ∈ rest, q.amt ≠ 0 := by
        rcases h with ⟨q, hq, hqa⟩
        rcases List.mem_cons.mp hq with rfl | hmem
        · exact absurd hp hqa
        · exact ⟨q, hmem, hqa⟩
      have ih := closeLoop_fail ex sym e hfail rest this
      simp [closeLoop, hp, ih]
    · simp [closeLoop, hp, hfail]

/-- Core of the below-minimum behaviour of `create_usdt_order`: the
`InvalidOrderError` raised at the check is re-raised as `TradingError`
by the catch-all, and no order is submitted. -/
lemma below_min_run (c : Settings) (ex : MockExchange) (sym : String)
    (ot : OrderType) (sd : OrderSide) (usdt : ℚ) (pr : Option ℚ)
    (pm : Option OrderParams) (P minA : ℚ)
    (hP : ex.tickerLast sym = .ok P) (hP0 : P ≠ 0)
    (hmin : ex.marketMinAmount sym = .ok minA)
    (hlt : decDiv usdt P < minA) :
    (create_usdt_order ⟨c, some ex⟩ sym ot sd usdt pr pm).result =
      .error (.tradingError (.wrap "Failed to create USDT order: "
        (.amountBelowMin (decDiv usdt P) minA))) ∧
    (create_usdt_order ⟨c, some ex⟩ sym ot sd usdt pr pm).calls =
      [.fetchTicker sym, .market sym] := by
  unfold create_usdt_order
  simp [exchangeTruthy, hP, hP0, hmin, hlt]

lemma retrieve_balance_state (st : ClientState) : (retrieve_balance st).state = st := by
  rcases st with ⟨c, _ | ex⟩
  · rfl
  · cases h : ex.fetchBalance with
    | error e => cases e <;> simp [retrieve_balance, h, exchangeTruthy]
    | ok b => simp [retrieve_balance, h, exchangeTruthy]

lemma fetch_positions_state (st : ClientState) (s : Option (List String)) :
    (fetch_positions st s).state = st := by
  rcases st with ⟨c, _ | ex⟩
  · rfl
  · cases h : ex.fetchPositions s with
    | error e => cases e <;> simp [fetch_positions, h, exchangeTruthy]
    | ok b => simp [fetch_positions, h, exchangeTruthy]

lemma fetch_open_orders_state (st : ClientState) (s : Option String) :
    (fetch_open_orders st s).state = st := by
  rcases st with ⟨c, _ | ex⟩
  · rfl
  · cases h : ex.fetchOpenOrders s with
    | error e => cases e <;> simp [fetch_open_orders, h, exchangeTruthy]
    | ok b => simp [fetch_open_orders, h, exchangeTruthy]

lemma fetch_ticker_state (st : ClientState) (s : String) :
    (fetch_ticker st s).state = st := by
  rcases st with ⟨c, _ | ex⟩
  · rfl
  · cases h : ex.tickerLast s with
    | error e => cases e <;> simp [fetch_ticker, h, exchangeTruthy]
    | ok b => simp [fetch_ticker, h, exchangeTruthy]

lemma create_order_state (st : ClientState) (sym : String) (ot : OrderType)
    (sd : OrderSide) (amt : ℚ) (pr : Option ℚ) (pm : Option OrderParams) :
    (create_order st sym ot sd amt pr pm).state = st := by
  rcases st with ⟨c, _ | ex⟩
  · rfl
  · simp only [create_order, exchangeTruthy, Bool.not_true, Bool.false_eq_true, if_false]
    split
    · rfl
    · split <;> rfl

lemma create_usdt_order_state (st : ClientState) (sym : String) (ot : OrderType)
    (sd : OrderSide) (usdt : ℚ) (pr : Option ℚ) (pm : Option OrderParams) :
    (create_usdt_order st sym ot sd usdt pr pm).state = st := by
  rcases st with ⟨c, _ | ex⟩
  · rfl
  · cases hT : ex.tickerLast sym with
    | error e => simp [create_usdt_order, hT, exchangeTruthy]
    | ok P =>
      by_cases hP : P = 0
      · simp [create_usdt_order, hT, hP, exchangeTruthy]
      · cases hM : ex.marketMinAmount sym with
        | error e => simp [create_usdt_order, hT, hP, hM, exchangeTruthy]
        | ok minA =>
          by_cases hlt : decDiv usdt P < minA
          · simp [create_usdt_order, hT, hP, hM, hlt, exchangeTruthy]
          · cases hI : (create_order ⟨c, some ex⟩ sym ot sd (decDiv usdt P) pr pm).result <;>
              simp [create_usdt_order, hT, hP, hM, hlt, hI, exchangeTruthy,
                create_order_state]

lemma close_position_state (st : ClientState) (sym : String) :
    (close_position st sym).state = st := by
  rcases st with ⟨c, _ | ex⟩
  · rfl
  · cases hF : ex.fetchPositions (some [sym]) with
    | error e => cases e <;> simp [close_position, hF, exchangeTruthy]
    | ok poss =>
      rcases hL : closeLoop ex sym poss with ⟨res, calls⟩
      cases res with
      | error e => cases e <;> simp [close_position, hF, hL, exchangeTruthy]
      | ok n =>
        by_cases hn : n = 0 <;> simp [close_position, hF, hL, hn, exchangeTruthy]

lemma retrieve_balance_no_uninit (st : ClientState) :
    (retrieve_balance st).result ≠
      .error (.exchangeError (.text "Exchange client not initialized")) := by
  rcases st with ⟨c, _ | ex⟩
  · simp [retrieve_balance]
  · simp only [retrieve_balance, exchangeTruthy, Bool.not_true, Bool.false_eq_true, if_false]
    split <;> simp

lemma fetch_positions_no_uninit (st : ClientState) (s : Option (List String)) :
    (fetch_positions st s).result ≠
      .error (.exchangeError (.text "Exchange client not initialized")) := by
  rcases st with ⟨c, _ | ex⟩
  · simp [fetch_positions]
  · simp only [fetch_positions, exchangeTruthy, Bool.not_true, Bool.false_eq_true, if_false]
    split <;> simp

lemma fetch_open_orders_no_uninit (st : ClientState) (s : Option String) :
    (fetch_open_orders st s).result ≠
      .error (.exchangeError (.text "Exchange client not initialized")) := by
  rcases st with ⟨c, _ | ex⟩
  · simp [fetch_open_orders]
  · simp only [fetch_open_orders, exchangeTruthy, Bool.not_true, Bool.false_eq_true, if_false]
    split <;> simp

lemma fetch_ticker_no_uninit (st : ClientState) (s : String) :
    (fetch_ticker st s).result ≠
      .error (.exchangeError (.text "Exchange client not initialized")) := by
  rcases st with ⟨c, _ | ex⟩
  · simp [fetch_ticker]
  · simp only [fetch_ticker, exchangeTruthy, Bool.not_true, Bool.false_eq_true, if_false]
    split <;> simp

lemma create_order_no_uninit (st : ClientState) (sym : String) (ot : OrderType)
    (sd : OrderSide) (amt : ℚ) (pr : Option ℚ) (pm : Option OrderParams) :
    (create_order st sym ot sd amt pr pm).result ≠
      .error (.exchangeError (.text "Exchange client not initialized")) := by
  rcases st with ⟨c, _ | ex⟩
  · simp [create_order]
  · simp only [create_order, exchangeTruthy, Bool.not_true, Bool.false_eq_true, if_false]
    split
    · simp
    · split <;> simp

lemma create_usdt_order_no_uninit (st : ClientState) (sym : String) (ot : OrderType)
    (sd : OrderSide) (usdt : ℚ) (pr : Option ℚ) (pm : Option OrderParams) :
    (create_usdt_order st sym ot sd usdt pr pm).result ≠
      .error (.exchangeError (.text "Exchange client not initialized")) := by
  rcases st with ⟨c, _ | ex⟩
  · simp [create_usdt_order]
  · simp only [create_usdt_order, exchangeTruthy, Bool.not_true, Bool.false_eq_true, if_false]
    split
    · simp
    · split
      · simp
      · split
        · simp
        · split
          · simp
          · split <;> simp

lemma close_position_no_uninit (st : ClientState) (sym : String) :
    (close_position st sym).result ≠
      .error (.exchangeError (.text "Exchange client not initialized")) := by
  rcases st with ⟨c, _ | ex⟩
  · simp [close_position]
  · simp only [close_position, exchangeTruthy, Bool.not_true, Bool.false_eq_true, if_false]
    split
    · simp
    · simp
    · simp
    · split
      · simp
      · simp
      · simp
      · split <;> simp

/-! ## The claims -/

/-- C1 (amended): when the computed base quantity `usdtAmount/price` is
strictly below the symbol's minimum, `create_usdt_order` fails — raising
`TradingError` whose message wraps the `InvalidOrderError` text carrying
both the computed quantity and the minimum (the `InvalidOrderError`
raised at the check is swallowed by the method's catch-all and re-raised
as `TradingError`) — and it never submits an order: the outbound calls
are exactly the ticker and metadata lookups, with no order submission. -/
theorem C1_below_min_trading_error (c : Settings) (ex : MockExchange) (sym : String)
    (ot : OrderType) (sd : OrderSide) (usdt : ℚ) (pr : Option ℚ)
    (pm : Option OrderParams) (P minA : ℚ)
    (hP : ex.tickerLast sym = .ok P) (hP0 : P ≠ 0)
    (hmin : ex.marketMinAmount sym = .ok minA)
    (hlt : decDiv usdt P < minA) :
    (create_usdt_order ⟨c, some ex⟩ sym ot sd usdt pr pm).result =
      .error (.tradingError (.wrap "Failed to create USDT order: "
        (.amountBelowMin (decDiv usdt P) minA))) ∧
    (create_usdt_order ⟨c, some ex⟩ sym ot sd usdt pr pm).calls =
      [.fetchTicker sym, .market sym] :=
  below_min_run c ex sym ot sd usdt pr pm P minA hP hP0 hmin hlt

/-- C1 witness: a market buy of 100 USDT at price 50000 against a minimum
of 0.01 fails with the wrapped below-minimum message and submits nothing. -/
theorem C1_witness :
    (create_usdt_order ⟨testSettings, some exOK⟩ "BTC/USDT" .market .buy 100 none none).result =
      .error (.tradingError (.wrap "Failed to create USDT order: "
        (.amountBelowMin (decDiv 100 50000) (1/100)))) ∧
    (create_usdt_order ⟨testSettings, some exOK⟩ "BTC/USDT" .market .buy 100 none none).calls =
      [.fetchTicker "BTC/USDT", .market "BTC/USDT"] :=
  C1_below_min_trading_error testSettings exOK "BTC/USDT" .market .buy 100 none none
    50000 (1/100) rfl (by norm_num) rfl (by rw [decDiv_100_50000]; norm_num)

/-- C1 counterexample to the claim as stated: on a below-minimum market
buy, the raised exception is a `TradingError`, not the claimed
`InvalidOrderError` — `create_usdt_order`'s final `except Exception`
catches its own `InvalidOrderError` and re-raises `TradingError`.  (The
message still carries both values, and no order is submitted.) -/
theorem C1_counterexample :
    (market_buy stOK "BTC/USDT" 100).result =
      .error (.tradingError (.wrap "Failed to create USDT order: "
        (.amountBelowMin (1/500) (1/100)))) ∧
    isInvalidOrderFailure (market_buy stOK "BTC/USDT" 100).result = false ∧
    (market_buy stOK "BTC/USDT" 100).calls = [.fetchTicker "BTC/USDT", .market "BTC/USDT"] := by
  refine ⟨?_, ?_, ?_⟩
  · show (create_usdt_order stOK "BTC/USDT" .market .buy 100 none none).result = _
    norm_num [create_usdt_order, stOK, exOK, exchangeTruthy, decDiv_100_50000]
  · show isInvalidOrderFailure
      (create_usdt_order stOK "BTC/USDT" .market .buy 100 none none).result = false
    norm_num [create_usdt_order, stOK, exOK, exchangeTruthy, decDiv_100_50000,
      isInvalidOrderFailure]
  · show (create_usdt_order stOK "BTC/USDT" .market .buy 100 none none).calls = _
    norm_num [create_usdt_order, stOK, exOK, exchangeTruthy, decDiv_100_50000]

/-- C2 (amended): a `ccxt.AuthenticationError` raised by the exchange
surfaces as the domain `AuthenticationError` from direct order submission
(`create_order`) and from `close_position`; but the notional operations
(market-buy, market-sell, limit-buy, limit-sell, all via
`create_usdt_order`) re-raise it as `TradingError` with the cause text
preserved, because their catch-all swallows the typed error. -/
theorem C2_auth_error_mapping (c : Settings) (ex : MockExchange) (sym m : String)
    (usdt : ℚ) (ot : OrderType) (sd : OrderSide) (amt : ℚ) (pr : Option ℚ)
    (pm : Option OrderParams)
    (hnl : ¬(ot = OrderType.limit ∧ pr = none))
    (hc : ∀ r, ex.createOrder r = .error (.auth m))
    (hp : ex.fetchPositions (some [sym]) = .error (.auth m))
    (ht : ex.tickerLast sym = .error (.auth m)) :
    (create_order ⟨c, some ex⟩ sym ot sd amt pr pm).result =
      .error (.authenticationError (.wrap "Authentication failed: " (.text m))) ∧
    (close_position ⟨c, some ex⟩ sym).result =
      .error (.authenticationError (.wrap "Authentication failed: " (.text m))) ∧
    (market_buy ⟨c, some ex⟩ sym usdt).result =
      .error (.tradingError (.wrap "Failed to create USDT order: " (.text m))) ∧
    (market_sell ⟨c, some ex⟩ sym usdt).result =
      .error (.tradingError (.wrap "Failed to create USDT order: " (.text m))) ∧
    (∀ p : ℚ, (limit_buy ⟨c, some ex⟩ sym usdt p).result =
      .error (.tradingError (.wrap "Failed to create USDT order: " (.text m)))) ∧
    (∀ p : ℚ, (limit_sell ⟨c, some ex⟩ sym usdt p).result =
      .error (.tradingError (.wrap "Failed to create USDT order: " (.text m)))) := by
  refine ⟨?_, ?_, ?_, ?_, fun p => ?_, fun p => ?_⟩
  · simp [create_order, exchangeTruthy, hnl, hc]
  · simp [close_position, exchangeTruthy, hp]
  · show (create_usdt_order ⟨c, some ex⟩ sym .market .buy usdt none none).result = _
    simp [create_usdt_order, exchangeTruthy, ht, CcxtErr.str]
  · show (create_usdt_order ⟨c, some ex⟩ sym .market .sell usdt none none).result = _
    simp [create_usdt_order, exchangeTruthy, ht, CcxtErr.str]
  · show (create_usdt_order ⟨c, some ex⟩ sym .limit .buy usdt (some p) none).result = _
    simp [create_usdt_order, exchangeTruthy, ht, CcxtErr.str]
  · show (create_usdt_order ⟨c, some ex⟩ sym .limit .sell usdt (some p) none).result = _
    simp [create_usdt_order, exchangeTruthy, ht, CcxtErr.str]

/-- C2 witness: with an exchange rejecting the credentials on every
request, `create_order` and `close_position` raise `AuthenticationError`
while the four notional operations raise `TradingError`. -/
theorem C2_witness :
    (create_order ⟨testSettings, some exAuthFail⟩ "BTC/USDT" .market .buy 1 none none).result =
      .error (.authenticationError (.wrap "Authentication failed: " (.text "bad key"))) ∧
    (close_position ⟨testSettings, some exAuthFail⟩ "BTC/USDT").result =
      .error (.authenticationError (.wrap "Authentication failed: " (.text "bad key"))) ∧
    (market_buy ⟨testSettings, some exAuthFail⟩ "BTC/USDT" 1).result =
      .error (.tradingError (.wrap "Failed to create USDT order: " (.text "bad key"))) ∧
    (market_sell ⟨testSettings, some exAuthFail⟩ "BTC/USDT" 1).result =
      .error (.tradingError (.wrap "Failed to create USDT order: " (.text "bad key"))) ∧
    (∀ p : ℚ, (limit_buy ⟨testSettings, some exAuthFail⟩ "BTC/USDT" 1 p).result =
      .error (.tradingError (.wrap "Failed to create USDT order: " (.text "bad key")))) ∧
    (∀ p : ℚ, (limit_sell ⟨testSettings, some exAuthFail⟩ "BTC/USDT" 1 p).result =
      .error (.tradingError (.wrap "Failed to create USDT order: " (.text "bad key")))) :=
  C2_auth_error_mapping testSettings exAuthFail "BTC/USDT" "bad key" 1 .market .buy 1 none none
    (by simp) (fun r => rfl) rfl rfl

/-- C2 counterexample to the claim as stated: an authentication failure
during `market_buy` surfaces as the generic `TradingError`, not as
`AuthenticationError`. -/
theorem C2_counterexample :
    (market_buy stAuthFail "BTC/USDT" 100).result =
      .error (.tradingError (.wrap "Failed to create USDT order: " (.text "bad key"))) ∧
    isAuthFailure (market_buy stAuthFail "BTC/USDT" 100).result = false := by
  constructor
  · show (create_usdt_order stAuthFail "BTC/USDT" .market .buy 100 none none).result = _
    simp [create_usdt_order, stAuthFail, exAuthFail, exchangeTruthy, CcxtErr.str]
  · show isAuthFailure
      (create_usdt_order stAuthFail "BTC/USDT" .market .buy 100 none none).result = false
    simp [create_usdt_order, stAuthFail, exAuthFail, exchangeTruthy, CcxtErr.str,
      isAuthFailure]

/-- C3 (amended): for usdtAmount > 0 and a positive last price P, the
conversion computes the base quantity as `usdtAmount / P` under decimal
(never binary floating-point) arithmetic, correctly rounded to the 28
significant digits of Python `Decimal`'s default context — exact exactly
when the quotient is representable in 28 significant digits (the
hypotheses `hL`, `hp`, `hk` state representability) — and the computed
quantity is cast to a binary float only at the ccxt call boundary. -/
theorem C3_decimal_conversion (c : Settings) (ex : MockExchange) (sym : String)
    (usdt P minA : ℚ) (L : ℤ) (p : ℚ) (k : ℤ)
    (hP : ex.tickerLast sym = .ok P) (hpos : 0 < P) (hu : 0 < usdt)
    (hL : ilog10q (usdt / P) = L) (hp : qpow10 (L - 27) = p)
    (hk : (usdt / P) / p = (k : ℚ))
    (hmin : ex.marketMinAmount sym = .ok minA)
    (hge : ¬ decDiv usdt P < minA) :
    decDiv usdt P = usdt / P ∧
    (market_buy ⟨c, some ex⟩ sym usdt).calls =
      [.fetchTicker sym, .market sym,
       .createOrder ⟨sym, "market", "BUY", pyFloat (usdt / P), none, []⟩] := by
  have hdq : decDiv usdt P = usdt / P := by
    unfold decDiv
    exact decRound28_int _ (div_pos hu hpos) L hL p hp k hk
  have hge' : ¬ usdt / P < minA := hdq ▸ hge
  refine ⟨hdq, ?_⟩
  show (create_usdt_order ⟨c, some ex⟩ sym .market .buy usdt none none).calls = _
  rcases hco : ex.createOrder ⟨sym, "market", "BUY", pyFloat (usdt / P), none, []⟩ with e | o
  · cases e <;> simp [create_usdt_order, exchangeTruthy, hP, ne_of_gt hpos, hmin, hge,
      hge', create_order, hco, hdq, OrderType.val, OrderSide.val]
  · simp [create_usdt_order, exchangeTruthy, hP, ne_of_gt hpos, hmin, hge, hge',
      create_order, hco, hdq, OrderType.val, OrderSide.val]

/-- C3 witness: the specification's own example — `marketBuy 100` at last
price 50000 computes exactly 0.002 and submits it (minimum 0.001). -/
theorem C3_witness :
    decDiv 100 50000 = 100 / 50000 ∧
    (market_buy ⟨testSettings, some exSpec⟩ "BTC/USDT" 100).calls =
      [.fetchTicker "BTC/USDT", .market "BTC/USDT",
       .createOrder ⟨"BTC/USDT", "market", "BUY", pyFloat (100 / 50000), none, []⟩] :=
  C3_decimal_conversion testSettings exSpec "BTC/USDT" 100 50000 (1/1000) (-3) (1/10^30)
    (2 * 10^27) rfl (by norm_num) (by norm_num) ilog10q_1_500
    (by rw [show (-3 - 27 : ℤ) = -((30:ℕ):ℤ) by norm_num, qpow10_neg 30 (by norm_num)])
    (by push_cast; norm_num) rfl
    (by rw [decDiv_100_50000]; norm_num)

/-- C3 counterexample to the claim as stated: with usdtAmount 1 and last
price 3 the computed base quantity is `0.3333333333333333333333333333`
(the 28-digit `Decimal` rounding, the value carried in the below-minimum
error), which is not exactly `1/3`. -/
theorem C3_counterexample :
    (market_buy stThird "ETH/USDT" 1).result =
      .error (.tradingError (.wrap "Failed to create USDT order: "
        (.amountBelowMin (3333333333333333333333333333 * (1/10^28)) 1))) ∧
    3333333333333333333333333333 * ((1:ℚ)/10^28) ≠ 1 / 3 := by
  constructor
  · show (create_usdt_order stThird "ETH/USDT" .market .buy 1 none none).result = _
    rw [show (3333333333333333333333333333 * ((1:ℚ)/10^28)) = decDiv 1 3 from
      decDiv_one_three.symm]
    norm_num [create_usdt_order, stThird, exThird, exchangeTruthy, decDiv_one_three]
  · norm_num

/-- C4 (amended): `create_usdt_order` performs no positivity validation —
with usdtAmount ≤ 0 it proceeds to the price lookup and (when the
symbol's minimum is positive) fails with `TradingError` wrapping the
below-minimum message; the `ValidationError` positivity check lives in
the MCP tool layer (`open_market_long` and peers), which rejects before
any exchange call and renders the error as a string. -/
theorem C4_validation_layer :
    (∀ (st : ClientState) (sym : String) (usdt : ℤ), sym ≠ "" → usdt ≤ 0 →
      open_market_long st sym usdt =
        ⟨st, .ok (.wrap "Failed to open market long position: "
          (.text "USDT amount must be positive")), []⟩) ∧
    (∀ (c : Settings) (ex : MockExchange) (sym : String) (ot : OrderType) (sd : OrderSide)
      (usdt : ℚ) (pr : Option ℚ) (pm : Option OrderParams) (P minA : ℚ),
      ex.tickerLast sym = .ok P → 0 < P → ex.marketMinAmount sym = .ok minA → 0 < minA →
      usdt ≤ 0 →
      (create_usdt_order ⟨c, some ex⟩ sym ot sd usdt pr pm).result =
        .error (.tradingError (.wrap "Failed to create USDT order: "
          (.amountBelowMin (decDiv usdt P) minA))) ∧
      (create_usdt_order ⟨c, some ex⟩ sym ot sd usdt pr pm).calls =
        [.fetchTicker sym, .market sym]) := by
  constructor
  · intro st sym usdt hsym husdt
    simp [open_market_long, hsym, husdt]
  · intro c ex sym ot sd usdt pr pm P minA hP hpos hmin hminpos husdt
    have h1 : usdt / P ≤ 0 := div_nonpos_iff.mpr (Or.inr ⟨husdt, hpos.le⟩)
    have hlt : decDiv usdt P < minA :=
      lt_of_le_of_lt (by unfold decDiv; exact decRound28_nonpos _ h1) hminpos
    exact below_min_run c ex sym ot sd usdt pr pm P minA hP (ne_of_gt hpos) hmin hlt

/-- C4 witness: the tool rejects usdtAmount 0 before any exchange call,
while `create_usdt_order` itself, called with 0, performs the price
lookup and fails with `TradingError`. -/
theorem C4_witness :
    (open_market_long stOK "BTC/USDT" 0 =
      ⟨stOK, .ok (.wrap "Failed to open market long position: "
        (.text "USDT amount must be positive")), []⟩) ∧
    (create_usdt_order ⟨testSettings, some exOK⟩ "BTC/USDT" .market .buy 0 none none).result =
      .error (.tradingError (.wrap "Failed to create USDT order: "
        (.amountBelowMin (decDiv 0 50000) (1/100)))) ∧
    (create_usdt_order ⟨testSettings, some exOK⟩ "BTC/USDT" .market .buy 0 none none).calls =
      [.fetchTicker "BTC/USDT", .market "BTC/USDT"] :=
  ⟨C4_validation_layer.1 stOK "BTC/USDT" 0 (by simp) (by norm_num),
   C4_validation_layer.2 testSettings exOK "BTC/USDT" .market .buy 0 none none 50000 (1/100)
     rfl (by norm_num) rfl (by norm_num) (by norm_num)⟩

/-- C4 counterexample to the claim as stated: calling the conversion with
usdtAmount 0 does not fail with `ValidationError` and does not fail
before the price lookup — the ticker is fetched and the failure is a
`TradingError` from the below-minimum check. -/
theorem C4_counterexample :
    (market_buy stOK "BTC/USDT" 0).result =
      .error (.tradingError (.wrap "Failed to create USDT order: "
        (.amountBelowMin 0 (1/100)))) ∧
    isValidationFailure (market_buy stOK "BTC/USDT" 0).result = false ∧
    (market_buy stOK "BTC/USDT" 0).calls = [.fetchTicker "BTC/USDT", .market "BTC/USDT"] := by
  have hz : decDiv 0 50000 = 0 := by
    unfold decDiv decRound28
    rw [if_pos (by norm_num)]
  refine ⟨?_, ?_, ?_⟩
  · show (create_usdt_order stOK "BTC/USDT" .market .buy 0 none none).result = _
    norm_num [create_usdt_order, stOK, exOK, exchangeTruthy, hz]
  · show isValidationFailure
      (create_usdt_order stOK "BTC/USDT" .market .buy 0 none none).result = false
    norm_num [create_usdt_order, stOK, exOK, exchangeTruthy, hz, isValidationFailure]
  · show (create_usdt_order stOK "BTC/USDT" .market .buy 0 none none).calls = _
    norm_num [create_usdt_order, stOK, exOK, exchangeTruthy, hz]

/-- C5 (amended): a LIMIT order submitted without a price fails without
any submission — but with `TradingError` wrapping the
`InvalidOrderError` text, since `create_order`'s `except Exception`
catches its own raise; and a MARKET order submitted with a nonzero price
is not rejected: the order is sent with the price forwarded. -/
theorem C5_order_type_price_validation :
    (∀ (c : Settings) (ex : MockExchange) (sym : String) (sd : OrderSide) (amt : ℚ)
      (pm : Option OrderParams),
      (create_order ⟨c, some ex⟩ sym OrderType.limit sd amt none pm).result =
        .error (.tradingError (.wrap "Failed to create order: "
          (.text "Price is required for limit orders"))) ∧
      (create_order ⟨c, some ex⟩ sym OrderType.limit sd amt none pm).calls = []) ∧
    (∀ (c : Settings) (ex : MockExchange) (sym : String) (sd : OrderSide) (amt p : ℚ)
      (pm : Option OrderParams), p ≠ 0 →
      (create_order ⟨c, some ex⟩ sym OrderType.market sd amt (some p) pm).calls =
        [.createOrder ⟨sym, "market", sd.val, pyFloat amt, some (pyFloat p), pm.getD []⟩]) := by
  constructor
  · intro c ex sym sd amt pm
    constructor <;> simp [create_order, exchangeTruthy]
  · intro c ex sym sd amt p pm hp
    rcases hco : ex.createOrder ⟨sym, "market", sd.val, pyFloat amt, some (pyFloat p),
      pm.getD []⟩ with e | o
    · cases e <;> simp [create_order, exchangeTruthy, hp, hco, OrderType.val]
    · simp [create_order, exchangeTruthy, hp, hco, OrderType.val]

/-- C5 witness: a LIMIT buy without a price fails and sends nothing; a
MARKET buy with price 5 is submitted with the price forwarded. -/
theorem C5_witness :
    ((create_order ⟨testSettings, some exOK⟩ "BTC/USDT" OrderType.limit .buy 1 none none).result =
      .error (.tradingError (.wrap "Failed to create order: "
        (.text "Price is required for limit orders"))) ∧
    (create_order ⟨testSettings, some exOK⟩ "BTC/USDT" OrderType.limit .buy 1 none none).calls = []) ∧
    (create_order ⟨testSettings, some exOK⟩ "BTC/USDT" OrderType.market .buy 1 (some 5) none).calls =
      [.createOrder ⟨"BTC/USDT", "market", "BUY", pyFloat 1, some (pyFloat 5), []⟩] :=
  ⟨C5_order_type_price_validation.1 testSettings exOK "BTC/USDT" .buy 1 none,
   C5_order_type_price_validation.2 testSettings exOK "BTC/USDT" .buy 1 5 none (by norm_num)⟩

/-- C5 counterexample to the claim as stated: the LIMIT-without-price
failure is a `TradingError`, not `InvalidOrderError`; and a MARKET order
with price 5 is not rejected — it is submitted (successfully) with the
price forwarded to the exchange. -/
theorem C5_counterexample :
    isInvalidOrderFailure
      (create_order stOK "BTC/USDT" OrderType.limit .buy 1 none none).result = false ∧
    (create_order stOK "BTC/USDT" OrderType.limit .buy 1 none none).result =
      .error (.tradingError (.wrap "Failed to create order: "
        (.text "Price is required for limit orders"))) ∧
    (create_order stOK "BTC/USDT" OrderType.market .buy 1 (some 5) none).result =
      .ok ⟨some "1"⟩ ∧
    (create_order stOK "BTC/USDT" OrderType.market .buy 1 (some 5) none).calls =
      [.createOrder ⟨"BTC/USDT", "market", "BUY", pyFloat 1, some (pyFloat 5), []⟩] := by
  refine ⟨?_, ?_, ?_, ?_⟩
  · simp +decide [create_order, stOK, exOK, exchangeTruthy, isInvalidOrderFailure]
  · simp +decide [create_order, stOK, exOK, exchangeTruthy]
  · simp +decide [create_order, stOK, exOK, exchangeTruthy]
  · simp +decide [create_order, stOK, exOK, exchangeTruthy, OrderType.val, OrderSide.val]

/-- C6: for every position in the snapshot fetched by `close_position`
with nonzero signed amount, exactly one closing MARKET order is submitted
— amount `|amount|`, side `'sell'` if the amount is positive and `'buy'`
if negative, with the reduce-only parameter — and zero-amount (or
missing-amount) positions are skipped; the outbound trace is exactly the
snapshot fetch followed by one such order per nonzero position, in order. -/
theorem C6_close_position_orders (c : Settings) (ex : MockExchange) (sym : String)
    (poss : List PositionInfo)
    (hfetch : ex.fetchPositions (some [sym]) = .ok poss)
    (hok : ∀ r, ∃ o, ex.createOrder r = .ok o) :
    (close_position ⟨c, some ex⟩ sym).calls =
      .fetchPositions (some [sym]) ::
        (poss.filter (fun p => p.amt ≠ 0)).map (fun p =>
          .createOrder ⟨sym, "market", if p.amt > 0 then "sell" else "buy",
            |p.amt|, none, [("reduceOnly", true)]⟩) := by
  unfold close_position
  simp only [exchangeTruthy, Bool.not_true, Bool.false_eq_true, if_false,
    hfetch, closeLoop_all_ok ex sym hok poss]
  split <;> rfl

/-- C6 witness: a snapshot with amounts +5, -3, 0 and a missing key
yields exactly a SELL of 5 and a BUY of 3, both reduce-only market
orders, and nothing else. -/
theorem C6_witness :
    (close_position ⟨testSettings, some exOK⟩ "BTC/USDT").calls =
      [.fetchPositions (some ["BTC/USDT"]),
       .createOrder ⟨"BTC/USDT", "market", "sell", 5, none, [("reduceOnly", true)]⟩,
       .createOrder ⟨"BTC/USDT", "market", "buy", 3, none, [("reduceOnly", true)]⟩] := by
  have h := C6_close_position_orders testSettings exOK "BTC/USDT"
    [⟨some 5⟩, ⟨some (-3)⟩, ⟨some 0⟩, ⟨none⟩] rfl (fun r => ⟨⟨some "1"⟩, rfl⟩)
  rw [h]
  norm_num [PositionInfo.amt, List.filter]

/-- C7: when the fetched snapshot has no position with nonzero amount,
`close_position` returns normally with the no-open-positions report for
the symbol, raises nothing, and submits no order. -/
theorem C7_close_position_no_open (c : Settings) (ex : MockExchange) (sym : String)
    (poss : List PositionInfo)
    (hfetch : ex.fetchPositions (some [sym]) = .ok poss)
    (hzero : ∀ p ∈ poss, p.amt = 0) :
    (close_position ⟨c, some ex⟩ sym).result = .ok ("No open positions found for " ++ sym) ∧
    (close_position ⟨c, some ex⟩ sym).calls = [.fetchPositions (some [sym])] := by
  unfold close_position
  simp [exchangeTruthy, hfetch, closeLoop_all_zero ex sym poss hzero]

/-- C7 witness: a snapshot holding a zero-amount entry and an entry with
no `positionAmt` key closes nothing and reports no open positions. -/
theorem C7_witness :
    (close_position ⟨testSettings, some exFlat⟩ "BTC/USDT").result =
      .ok ("No open positions found for " ++ "BTC/USDT") ∧
    (close_position ⟨testSettings, some exFlat⟩ "BTC/USDT").calls =
      [.fetchPositions (some ["BTC/USDT"])] :=
  C7_close_position_no_open testSettings exFlat "BTC/USDT" [⟨some 0⟩, ⟨none⟩] rfl
    (by intro p hp; simp [List.mem_cons] at hp; rcases hp with h | h <;>
      simp [h, PositionInfo.amt])

/-- C8: if the closing-order submissions inside `close_position` fail and
some position has nonzero amount, `close_position` raises a typed error
to its caller (`AuthenticationError`, `NetworkError` or `TradingError`
according to the ccxt exception) instead of returning a success report. -/
theorem C8_close_position_failure_surfaced (c : Settings) (ex : MockExchange)
    (sym : String) (poss : List PositionInfo) (e : CcxtErr)
    (hfetch : ex.fetchPositions (some [sym]) = .ok poss)
    (hnz : ∃ p ∈ poss, p.amt ≠ 0)
    (hfail : ∀ r, ex.createOrder r = .error e) :
    (close_position ⟨c, some ex⟩ sym).result =
      .error (match e with
        | .auth m => .authenticationError (.wrap "Authentication failed: " (.text m))
        | .network m => .networkError (.wrap "Network error: " (.text m))
        | e' => .tradingError (.wrap "Failed to close position: " e'.str)) := by
  unfold close_position
  have hL := closeLoop_fail ex sym e hfail poss hnz
  rcases hcl : closeLoop ex sym poss with ⟨res, calls⟩
  rw [hcl] at hL
  simp at hL
  subst hL
  cases e <;> simp [exchangeTruthy, hfetch, hcl, CcxtErr.str]

/-- C8 witness: with one open long of 5 and an exchange refusing the
submission, `close_position` raises `TradingError` wrapping the cause. -/
theorem C8_witness :
    (close_position ⟨testSettings, some exSubmitFail⟩ "BTC/USDT").result =
      .error (.tradingError (.wrap "Failed to close position: " (.text "boom"))) :=
  C8_close_position_failure_surfaced testSettings exSubmitFail "BTC/USDT"
    [⟨some 5⟩] (.other "boom") rfl ⟨⟨some 5⟩, by simp, by norm_num [PositionInfo.amt]⟩
    (fun r => rfl)

/-- C9: every core operation other than initialization leaves the client
instance's fields (`config` and the `exchange` attribute slot) unchanged:
no persistent mutable state is written across calls. -/
theorem C9_no_persistent_state :
    (∀ st, (retrieve_balance st).state = st) ∧
    (∀ st s, (fetch_positions st s).state = st) ∧
    (∀ st s, (fetch_open_orders st s).state = st) ∧
    (∀ st sym ot sd amt pr pm, (create_order st sym ot sd amt pr pm).state = st) ∧
    (∀ st sym ot sd usdt pr pm, (create_usdt_order st sym ot sd usdt pr pm).state = st) ∧
    (∀ st sym usdt, (market_buy st sym usdt).state = st) ∧
    (∀ st sym usdt, (market_sell st sym usdt).state = st) ∧
    (∀ st sym usdt p, (limit_buy st sym usdt p).state = st) ∧
    (∀ st sym usdt p, (limit_sell st sym usdt p).state = st) ∧
    (∀ st sym, (close_position st sym).state = st) ∧
    (∀ st sym, (fetch_ticker st sym).state = st) :=
  ⟨retrieve_balance_state, fetch_positions_state, fetch_open_orders_state,
   create_order_state, create_usdt_order_state,
   fun st sym usdt => create_usdt_order_state st sym _ _ usdt _ _,
   fun st sym usdt => create_usdt_order_state st sym _ _ usdt _ _,
   fun st sym usdt p => create_usdt_order_state st sym _ _ usdt (some p) _,
   fun st sym usdt p => create_usdt_order_state st sym _ _ usdt (some p) _,
   close_position_state, fetch_ticker_state⟩

/-- C10: on a client whose initialization never ran, the `exchange`
attribute does not exist, so every operation's `if not self.exchange`
guard raises `AttributeError` — and `is_connected` raises
`AttributeError` instead of returning `False`; moreover the
`ExchangeError("Exchange client not initialized")` branch is unreachable
on every operation and every state, because once the attribute is
assigned it holds a (truthy) `binance` instance. -/
theorem C10_uninitialized_attribute_error :
    (∀ c, (retrieve_balance ⟨c, none⟩).result = .error .attributeError) ∧
    (∀ c s, (fetch_positions ⟨c, none⟩ s).result = .error .attributeError) ∧
    (∀ c s, (fetch_open_orders ⟨c, none⟩ s).result = .error .attributeError) ∧
    (∀ c sym ot sd amt pr pm,
      (create_order ⟨c, none⟩ sym ot sd amt pr pm).result = .error .attributeError) ∧
    (∀ c sym ot sd usdt pr pm,
      (create_usdt_order ⟨c, none⟩ sym ot sd usdt pr pm).result = .error .attributeError) ∧
    (∀ c sym, (close_position ⟨c, none⟩ sym).result = .error .attributeError) ∧
    (∀ c sym, (fetch_ticker ⟨c, none⟩ sym).result = .error .attributeError) ∧
    (∀ c, (is_connected ⟨c, none⟩).result = .error .attributeError) ∧
    (∀ st, (retrieve_balance st).result ≠
      .error (.exchangeError (.text "Exchange client not initialized"))) ∧
    (∀ st s, (fetch_positions st s).result ≠
      .error (.exchangeError (.text "Exchange client not initialized"))) ∧
    (∀ st s, (fetch_open_orders st s).result ≠
      .error (.exchangeError (.text "Exchange client not initialized"))) ∧
    (∀ st sym ot sd amt pr pm, (create_order st sym ot sd amt pr pm).result ≠
      .error (.exchangeError (.text "Exchange client not initialized"))) ∧
    (∀ st sym ot sd usdt pr pm, (create_usdt_order st sym ot sd usdt pr pm).result ≠
      .error (.exchangeError (.text "Exchange client not initialized"))) ∧
    (∀ st sym, (close_position st sym).result ≠
      .error (.exchangeError (.text "Exchange client not initialized"))) ∧
    (∀ st sym, (fetch_ticker st sym).result ≠
      .error (.exchangeError (.text "Exchange client not initialized"))) :=
  ⟨fun _ => rfl, fun _ _ => rfl, fun _ _ => rfl, fun _ _ _ _ _ _ _ => rfl,
   fun _ _ _ _ _ _ _ => rfl, fun _ _ => rfl, fun _ _ => rfl, fun _ => rfl,
   retrieve_balance_no_uninit, fetch_positions_no_uninit, fetch_open_orders_no_uninit,
   create_order_no_uninit, create_usdt_order_no_uninit, close_position_no_uninit,
   fetch_ticker_no_uninit⟩
